import Mathlib

/-!
Verification of the Langchain-RAG-Chatbot request handlers (src/main.py,
src/langchain_utils.py) against their specification.

The handlers are shallowly embedded: external collaborators (the Chroma
document store, the relational log store, the RAG chain invocation) are
modelled either by oracles deciding success/failure of each call, or --
where their code is not part of the sources (src/db_utils.py,
src/chroma_utils.py) -- by state-passing functions that follow the
interfaces given in the specification.
-/

namespace RAG

/-- A prior (question, answer) turn of a session's chat history. -/
abbrev Turn := String × String

/-- An HTTPException as raised by the FastAPI handlers: status code and detail. -/
structure HTTPException where
  status_code : Nat
  detail : String
deriving DecidableEq, Repr

/- ### File extension handling (main.py lines 96-97) -/

/-- Index of the last occurrence of `c` in `s`, or -1 when absent
(Python `str.rfind`). -/
def rfind (s : List Char) (c : Char) : Int :=
  (List.range s.length).foldl
    (fun acc i => if s.get? i = some c then (i : Int) else acc) (-1)

/-- The extension part of `os.path.splitext` (CPython `genericpath._splitext`
with `sep = '/'`, `extsep = '.'`), as applied to `file.filename` in
main.py line 97: the substring from the last dot onward, provided that dot
lies after the last separator and some non-dot character of the basename
precedes it; otherwise the empty string. -/
def splitext_ext (p : String) : String :=
  let s := p.data
  let sepIndex := rfind s '/'
  let dotIndex := rfind s '.'
  if decide (sepIndex < dotIndex) &&
      (List.range s.length).any (fun k =>
        decide (sepIndex < (k : Int)) && decide ((k : Int) < dotIndex) &&
        decide (s.get? k ≠ some '.'))
  then String.mk (s.drop dotIndex.toNat)
  else ""

/-- Python `str.lower`, faithful on the ASCII alphabet. -/
def pyLower (s : String) : String := String.mk (s.data.map Char.toLower)

/-- main.py line 96: `allowed_extensions = ['.pdf', '.docx', '.html']`. -/
def allowed_extensions : List String := [".pdf", ".docx", ".html"]

/-- main.py line 97: `os.path.splitext(file.filename)[1].lower()`. -/
def file_extension (filename : String) : String := pyLower (splitext_ext filename)

/- ### The stores (modelled from the spec, being outside the sources) -/

/-- Joint state of the Relational Log Store's document records and the Chroma
Document Store's indexed chunks, plus the temporary upload file. `records` is
the list of file_ids having a DocumentRecord, `chroma` the list of file_ids
whose chunks are indexed; `tempFile` tells whether the temporary upload file
currently exists; `nextId` is the next fresh file_id. -/
structure World where
  records : List Nat
  chroma : List Nat
  tempFile : Bool
  nextId : Nat
deriving DecidableEq, Repr

/-- Modelled from the spec: Relational Log Store interface
`insert_document_record(filename) -> file_id` (src/db_utils.py is not among
the sources). Creates a DocumentRecord under a fresh file_id and returns it. -/
def insert_document_record (w : World) : Nat × World :=
  (w.nextId, { w with records := w.nextId :: w.records, nextId := w.nextId + 1 })

/-- Modelled from the spec: `delete_document_record(file_id) -> bool`
(src/db_utils.py is not among the sources). Removes the DocumentRecord when
present and reports whether it was present. -/
def delete_document_record (w : World) (fid : Nat) : Bool × World :=
  (decide (fid ∈ w.records), { w with records := w.records.erase fid })

/-- Modelled from the spec: Document Store interface
`index(file_path, file_id) -> bool` (src/chroma_utils.py is not among the
sources). The oracle `ok` decides whether the store accepts the content; on
success the chunks are indexed under `fid`. -/
def index_document_to_chroma (ok : Bool) (w : World) (fid : Nat) : Bool × World :=
  if ok then (true, { w with chroma := fid :: w.chroma }) else (false, w)

/-- Modelled from the spec: `delete(file_id) -> bool` (src/chroma_utils.py is
not among the sources); deleting a non-existent file_id returns failure and
leaves the store unchanged. -/
def delete_doc_from_chroma (w : World) (fid : Nat) : Bool × World :=
  if fid ∈ w.chroma then (true, { w with chroma := w.chroma.erase fid })
  else (false, w)

/- ### Upload endpoint (main.py lines 94-124) -/

/-- Environment oracle for one upload request: whether
`shutil.copyfileobj` raises (an I/O failure while writing the temporary
file), and whether the Document Store accepts the content for indexing. -/
structure UploadEnv where
  copy_raises : Bool
  index_ok : Bool
deriving DecidableEq, Repr

/-- Outcome of the upload endpoint: a success payload `{message, file_id}`,
a raised HTTPException, or an uncaught exception propagating out of the
handler. -/
inductive UploadOutcome where
  | success (file_id : Nat) (message : String)
  | httpError (status_code : Nat) (detail : String)
  | exn (e : String)
deriving DecidableEq, Repr

/-- main.py lines 94-124, `upload_and_index_document`: validates the file
extension, writes the upload to a temporary file, creates a DocumentRecord,
indexes into Chroma; on indexing failure deletes the record and raises
HTTP 500; the `finally` block removes the temporary file on every exit from
the `try` block. -/
def upload_and_index_document (env : UploadEnv) (w : World) (filename : String) :
    UploadOutcome × World :=
  if file_extension filename ∉ allowed_extensions then
    (.httpError 400 "Unsupported file type. Allowed types are: .pdf, .docx, .html", w)
  else
    let w1 := { w with tempFile := true }
    if env.copy_raises then
      (.exn "copyfileobj failed", { w1 with tempFile := false })
    else
      let r2 := insert_document_record w1
      let r3 := index_document_to_chroma env.index_ok r2.2 r2.1
      if r3.1 then
        (.success r2.1 ("File " ++ filename ++ " has been successfully uploaded and indexed."),
         { r3.2 with tempFile := false })
      else
        let r4 := delete_document_record r3.2 r2.1
        (.httpError 500 ("Failed to index " ++ filename ++ "."),
         { r4.2 with tempFile := false })

/- ### Delete endpoint (main.py lines 132-143) -/

/-- Payload of the delete-doc endpoint: a `{message}` or an in-band `{error}`. -/
inductive DeletePayload where
  | message (s : String)
  | error (s : String)
deriving DecidableEq, Repr

/-- Whether a delete payload is the success `{message}` form. -/
def DeletePayload.isMessage : DeletePayload → Bool
  | .message _ => true
  | .error _ => false

/-- Response of the delete-doc endpoint. The handler returns plain dicts, so
FastAPI serves status 200; the status code is recorded explicitly. -/
structure DeleteResponse where
  status_code : Nat
  payload : DeletePayload
deriving DecidableEq, Repr

/-- main.py lines 132-143, `delete_document`: deletes from Chroma first and
only on success deletes the DocumentRecord; every branch returns a plain
payload (status 200), with failures reported in-band. -/
def delete_document (w : World) (fid : Nat) : DeleteResponse × World :=
  let rc := delete_doc_from_chroma w fid
  if rc.1 then
    let rd := delete_document_record rc.2 fid
    if rd.1 then
      (⟨200, .message ("Successfully deleted document with file_id " ++ toString fid ++
        " from the system.")⟩, rd.2)
    else
      (⟨200, .error ("Deleted from Chroma but failed to delete document with file_id " ++
        toString fid ++ " from the database.")⟩, rd.2)
  else
    (⟨200, .error ("Failed to delete document with file_id " ++ toString fid ++
      " from Chroma.")⟩, rc.2)

/- ### Chat endpoint (main.py lines 26-91, langchain_utils.py lines 47-69) -/

/-- Body of a chat request (`QueryInput`): question, optional session id and
the requested model identifier. -/
structure QueryInput where
  question : String
  session_id : Option String
  model : String
deriving DecidableEq, Repr

/-- Body of a successful chat response (`QueryResponse`). -/
structure QueryResponse where
  answer : String
  session_id : String
  model : String
deriving DecidableEq, Repr

/-- Raw value returned by `rag_chain.invoke` (main.py lines 56-68): either a
dict with optional `answer` and `output_text` entries, or an arbitrary other
value; `str_repr` is its `str()` rendering. -/
inductive RagResponse where
  | dict (answer output_text : Option String) (str_repr : String)
  | other (str_repr : String)
deriving DecidableEq, Repr

/-- Python `x or y` for an optional string `x`: `y` when `x` is None or the
empty (falsy) string. -/
def pyOrStr : Option String → String → String
  | some s, y => if s = "" then y else s
  | none, y => y

/-- main.py lines 65-68: `response.get("answer") or response.get("output_text")
or str(response)` for a dict, `str(response)` otherwise. -/
def extract_answer : RagResponse → String
  | .dict a o s => pyOrStr a (pyOrStr o s)
  | .other s => s

/-- The single supported model identifier, `"gemini-2.0-flash"`. -/
def supported_model : String := "gemini-2.0-flash"

/-- langchain_utils.py lines 49-52: the `allowed_models` set of `get_rag_chain`. -/
def allowed_models : List String := ["gemini-2.0-flash", "gemini-2.0-pro"]

/-- langchain_utils.py line 54: the model identifier `get_rag_chain` actually
hands to the LLM client. -/
def rag_chain_model (model : String) : String :=
  if model ∈ allowed_models then model else supported_model

/-- main.py lines 38-42: any requested value other than the supported model is
overwritten with the supported model before the candidate list is built. -/
def forced_model (requested : String) : String :=
  if requested ≠ supported_model then supported_model else requested

/-- main.py lines 44-48: `model_candidates = [model_value, "gemini-2.0-flash"]`,
built from the already-forced `model_value`. -/
def model_candidates (requested : String) : List String :=
  [forced_model requested, supported_model]

/-- Environment oracle for one chat request: the fresh uuid generated for a
missing session id, the outcome of `get_chat_history` (error = the fetch
raised), the outcome of building and invoking the RAG chain as a function of
the attempt index, the candidate model and the chat history passed in, and
whether `insert_application_logs` succeeds. -/
structure ChatEnv where
  gen_uuid : String
  history : Except String (List Turn)
  invoke : Nat → String → List Turn → Except String RagResponse
  insert_log_ok : Bool

/-- State of the fallback loop's local variables after the loop (main.py
lines 50-76), together with the list of candidates actually attempted,
in order. -/
structure LoopState where
  attempted : List String
  answer : Option String
  model_value : String
  last_error : Option String
deriving DecidableEq, Repr

/-- main.py lines 53-76: the `for candidate in model_candidates` loop. On
success the answer is extracted, `model_value` is set to the candidate,
`last_error` is reset and the loop breaks; on an exception `last_error` is
recorded and the next candidate is tried. -/
def chat_loop (invoke : Nat → String → List Turn → Except String RagResponse)
    (hist : List Turn) :
    List String → Nat → String → Option String → LoopState
  | [], _, mv, le => ⟨[], none, mv, le⟩
  | c :: rest, i, mv, _ =>
    match invoke i c hist with
    | .ok r => ⟨[c], some (extract_answer r), c, none⟩
    | .error e =>
      let s := chat_loop invoke hist rest (i + 1) mv (some e)
      ⟨c :: s.attempted, s.answer, s.model_value, s.last_error⟩

/-- main.py line 28: `query_input.session_id or str(uuid.uuid4())`; a missing
or empty (falsy) session id is replaced by the generated uuid. -/
def effective_session_id (q : QueryInput) (g : String) : String :=
  match q.session_id with
  | some s => if s = "" then g else s
  | none => g

/-- main.py lines 32-36: `get_chat_history` guarded by try/except; a raising
fetch yields the empty history. -/
def history_or_empty : Except String (List Turn) → List Turn
  | .ok h => h
  | .error _ => []

/-- Result of one chat request: the HTTP response (success body or raised
HTTPException), the candidates attempted in order, the chat history passed to
the pipeline, and the outcome of the best-effort log insert (`none` when it
was never reached, `some b` when attempted with success `b`). -/
structure ChatResult where
  response : Except HTTPException QueryResponse
  attempted : List String
  history_used : List Turn
  log_written : Option Bool
deriving Repr

/-- main.py lines 26-91, `chat`: resolves the session id, fetches history
best-effort, forces the supported model, runs the fallback loop, raises
HTTP 500 when `last_error` is set or no answer was produced, otherwise
inserts the application log best-effort and returns the response. -/
def chat (env : ChatEnv) (q : QueryInput) : ChatResult :=
  let session_id := effective_session_id q env.gen_uuid
  let chat_history := history_or_empty env.history
  let mv := forced_model q.model
  let loop := chat_loop env.invoke chat_history (model_candidates q.model) 0 mv none
  match loop.last_error, loop.answer with
  | some e, _ =>
    ⟨.error ⟨500, "RAG invocation failed: " ++ e⟩, loop.attempted, chat_history, none⟩
  | none, none =>
    ⟨.error ⟨500, "RAG invocation failed: None"⟩, loop.attempted, chat_history, none⟩
  | none, some a =>
    ⟨.ok ⟨a, session_id, loop.model_value⟩, loop.attempted, chat_history,
      some env.insert_log_ok⟩

/- ### Helper lemmas -/

lemma forced_model_eq (r : String) : forced_model r = supported_model := by
  unfold forced_model
  split
  · rfl
  · next h => exact not_not.mp h

lemma model_candidates_eq (r : String) :
    model_candidates r = [supported_model, supported_model] := by
  unfold model_candidates
  rw [forced_model_eq]

lemma chat_eq_ok0 (env : ChatEnv) (q : QueryInput) (r : RagResponse)
    (h0 : env.invoke 0 supported_model (history_or_empty env.history) = .ok r) :
    chat env q =
      ⟨.ok ⟨extract_answer r, effective_session_id q env.gen_uuid, supported_model⟩,
        [supported_model], history_or_empty env.history, some env.insert_log_ok⟩ := by
  unfold chat
  rw [model_candidates_eq, forced_model_eq]
  simp [chat_loop, h0]

lemma chat_eq_ok1 (env : ChatEnv) (q : QueryInput) (e0 : String) (r : RagResponse)
    (h0 : env.invoke 0 supported_model (history_or_empty env.history) = .error e0)
    (h1 : env.invoke 1 supported_model (history_or_empty env.history) = .ok r) :
    chat env q =
      ⟨.ok ⟨extract_answer r, effective_session_id q env.gen_uuid, supported_model⟩,
        [supported_model, supported_model], history_or_empty env.history,
        some env.insert_log_ok⟩ := by
  unfold chat
  rw [model_candidates_eq, forced_model_eq]
  simp [chat_loop, h0, h1]

lemma chat_eq_fail (env : ChatEnv) (q : QueryInput) (e0 e1 : String)
    (h0 : env.invoke 0 supported_model (history_or_empty env.history) = .error e0)
    (h1 : env.invoke 1 supported_model (history_or_empty env.history) = .error e1) :
    chat env q =
      ⟨.error ⟨500, "RAG invocation failed: " ++ e1⟩,
        [supported_model, supported_model], history_or_empty env.history, none⟩ := by
  unfold chat
  rw [model_candidates_eq, forced_model_eq]
  simp [chat_loop, h0, h1]

lemma chat_congr_history (env env' : ChatEnv) (q : QueryInput)
    (hg : env.gen_uuid = env'.gen_uuid)
    (hh : history_or_empty env.history = history_or_empty env'.history)
    (hi : env.invoke = env'.invoke)
    (hl : env.insert_log_ok = env'.insert_log_ok) :
    chat env q = chat env' q := by
  unfold chat
  rw [hg, hh, hi, hl]

lemma chat_history_used (env : ChatEnv) (q : QueryInput) :
    (chat env q).history_used = history_or_empty env.history := by
  simp only [chat]
  split <;> rfl

/- ### Concrete fixtures used by witnesses -/

/-- A world with one indexed document (file_id 7) and next fresh id 9. -/
def w0 : World := ⟨[7], [7], false, 9⟩

/- ### Claim theorems: document management -/

/-- C1: for every upload with an allowed extension, when indexing returns
false the just-created DocumentRecord is deleted and the request fails with
HTTP 500; and a DocumentRecord for the upload exists after the operation iff
indexing succeeded. -/
theorem upload_rollback_iff_indexed (env : UploadEnv) (w : World) (filename : String)
    (hext : file_extension filename ∈ allowed_extensions)
    (hfresh : w.nextId ∉ w.records) :
    (env.copy_raises = false → env.index_ok = false →
      (upload_and_index_document env w filename).1 =
        .httpError 500 ("Failed to index " ++ filename ++ ".") ∧
      (upload_and_index_document env w filename).2.records = w.records) ∧
    (w.nextId ∈ (upload_and_index_document env w filename).2.records ↔
      env.copy_raises = false ∧ env.index_ok = true) := by
  unfold upload_and_index_document
  cases env.copy_raises <;> cases env.index_ok <;>
    simp [hext, hfresh, insert_document_record, index_document_to_chroma,
      delete_document_record]

/-- C1 witness: at a concrete upload where indexing returns false, the
operation raises HTTP 500 and the records are as before the upload. -/
theorem upload_rollback_witness :
    (upload_and_index_document ⟨false, false⟩ w0 "a.pdf").1 =
      .httpError 500 "Failed to index a.pdf." ∧
    (upload_and_index_document ⟨false, false⟩ w0 "a.pdf").2.records = w0.records :=
  (upload_rollback_iff_indexed ⟨false, false⟩ w0 "a.pdf" (by decide) (by decide)).1
    rfl rfl

/-- C5: for every upload that passes the extension check, the temporary file
is absent after the operation on every exit path (success, indexing failure,
or an exception while writing the file). -/
theorem upload_temp_file_removed (env : UploadEnv) (w : World) (filename : String)
    (hext : file_extension filename ∈ allowed_extensions) :
    (upload_and_index_document env w filename).2.tempFile = false := by
  unfold upload_and_index_document
  cases env.copy_raises <;> cases env.index_ok <;>
    simp [hext, insert_document_record, index_document_to_chroma,
      delete_document_record]

/-- C5 witness: a concrete upload with an allowed extension ends with no
temporary file. -/
theorem upload_temp_file_removed_witness :
    (upload_and_index_document ⟨true, true⟩ w0 "a.pdf").2.tempFile = false :=
  upload_temp_file_removed ⟨true, true⟩ w0 "a.pdf" (by decide)

/-- C8: every upload whose extension is outside the allow-list is rejected
with HTTP 400 and the world is unchanged: no file written, no DocumentRecord
created, no indexing attempted. -/
theorem upload_disallowed_extension_rejected (env : UploadEnv) (w : World)
    (filename : String) (h : file_extension filename ∉ allowed_extensions) :
    upload_and_index_document env w filename =
      (.httpError 400 "Unsupported file type. Allowed types are: .pdf, .docx, .html", w) := by
  unfold upload_and_index_document
  simp [h]

/-- C8 witness: uploading "notes.txt" is rejected with HTTP 400 and leaves
the world unchanged. -/
theorem upload_disallowed_witness :
    upload_and_index_document ⟨false, true⟩ w0 "notes.txt" =
      (.httpError 400 "Unsupported file type. Allowed types are: .pdf, .docx, .html", w0) :=
  upload_disallowed_extension_rejected ⟨false, true⟩ w0 "notes.txt" (by decide)

/-- C4: deletion from the Document Store is attempted first; deleting a
non-existent file_id fails; whenever the store deletion fails the whole world
(in particular the DocumentRecord) is unchanged; and the records change only
when the store deletion succeeded. -/
theorem delete_metadata_only_if_store_deleted (w : World) (fid : Nat) :
    (fid ∉ w.chroma → (delete_doc_from_chroma w fid).1 = false) ∧
    ((delete_doc_from_chroma w fid).1 = false → (delete_document w fid).2 = w) ∧
    ((delete_document w fid).2.records ≠ w.records →
      (delete_doc_from_chroma w fid).1 = true) := by
  unfold delete_document delete_doc_from_chroma delete_document_record
  by_cases h : fid ∈ w.chroma <;> simp [h]

/-- C4 witness: deleting the non-existent file_id 8 fails in the store and
leaves the world unchanged. -/
theorem delete_metadata_witness :
    (delete_doc_from_chroma w0 8).1 = false ∧ (delete_document w0 8).2 = w0 :=
  ⟨(delete_metadata_only_if_store_deleted w0 8).1 (by decide),
   (delete_metadata_only_if_store_deleted w0 8).2.1 (by decide)⟩

/-- C9: every delete-doc request returns HTTP status 200, and the payload is
the success message exactly when both the store deletion and the metadata
deletion succeed, an in-band error otherwise. -/
theorem delete_doc_always_200 (w : World) (fid : Nat) :
    (delete_document w fid).1.status_code = 200 ∧
    (delete_document w fid).1.payload.isMessage =
      (decide (fid ∈ w.chroma) && decide (fid ∈ w.records)) := by
  unfold delete_document delete_doc_from_chroma delete_document_record
  by_cases h : fid ∈ w.chroma <;> by_cases h2 : fid ∈ w.records <;>
    simp [DeletePayload.isMessage, h, h2]

/- ### Claim theorems: chat -/

/-- A chat environment whose first invocation succeeds with answer "ans". -/
def envOk : ChatEnv :=
  ⟨"uuid-1", .ok [], fun _ _ _ => .ok (.dict (some "ans") none "raw"), true⟩

/-- A chat request asking for the unsupported model "gemini-2.0-pro". -/
def qPro : QueryInput := ⟨"q", none, "gemini-2.0-pro"⟩

/-- A chat environment whose first invocation fails and whose second
succeeds. -/
def envFb : ChatEnv :=
  ⟨"uuid-2", .ok [("q0", "a0")],
    fun i _ _ => if i = 0 then .error "quota" else .ok (.other "recovered"), true⟩

/-- A chat request for the supported model with an explicit session id. -/
def qFlash : QueryInput := ⟨"q2", some "sess-9", "gemini-2.0-flash"⟩

/-- A chat environment whose history fetch raises and whose invocations
succeed with answer "a3". -/
def envHistFail : ChatEnv :=
  ⟨"uuid-3", .error "db down", fun _ _ _ => .ok (.dict (some "a3") none "raw"), true⟩

/-- C2 counterexample: a successful request for "gemini-2.0-pro" attempts only
the supported default; the requested model is never among the attempted
candidates, so the attempted list is not (requested model, then default). -/
theorem chat_requested_model_not_attempted :
    qPro.model = "gemini-2.0-pro" ∧
    (chat envOk qPro).attempted = ["gemini-2.0-flash"] ∧
    qPro.model ∉ (chat envOk qPro).attempted := by
  refine ⟨rfl, rfl, ?_⟩
  intro h
  simp [chat, envOk, qPro, chat_loop, model_candidates, forced_model,
    supported_model, history_or_empty] at h

/-- C2 (amended): the handler attempts the candidates (the requested model
downgraded to the supported default, then the supported default) in order
until one succeeds; the first success's extracted answer is returned and no
later candidate is attempted; if every candidate fails, the request fails
with HTTP 500 carrying the last underlying error and no answer is
returned. -/
theorem chat_fallback_first_success_or_500 (env : ChatEnv) (q : QueryInput) :
    (∀ r, env.invoke 0 supported_model (history_or_empty env.history) = .ok r →
      (chat env q).attempted = [supported_model] ∧
      (chat env q).response =
        .ok ⟨extract_answer r, effective_session_id q env.gen_uuid, supported_model⟩) ∧
    (∀ e0 r, env.invoke 0 supported_model (history_or_empty env.history) = .error e0 →
      env.invoke 1 supported_model (history_or_empty env.history) = .ok r →
      (chat env q).attempted = [supported_model, supported_model] ∧
      (chat env q).response =
        .ok ⟨extract_answer r, effective_session_id q env.gen_uuid, supported_model⟩) ∧
    (∀ e0 e1, env.invoke 0 supported_model (history_or_empty env.history) = .error e0 →
      env.invoke 1 supported_model (history_or_empty env.history) = .error e1 →
      (chat env q).attempted = [supported_model, supported_model] ∧
      (chat env q).response = .error ⟨500, "RAG invocation failed: " ++ e1⟩) := by
  refine ⟨fun r h0 => ?_, fun e0 r h0 h1 => ?_, fun e0 e1 h0 h1 => ?_⟩
  · rw [chat_eq_ok0 env q r h0]
    exact ⟨rfl, rfl⟩
  · rw [chat_eq_ok1 env q e0 r h0 h1]
    exact ⟨rfl, rfl⟩
  · rw [chat_eq_fail env q e0 e1 h0 h1]
    exact ⟨rfl, rfl⟩

/-- C2 witness: in a concrete run whose first attempt fails, the second
candidate is attempted and its answer is served. -/
theorem chat_fallback_witness :
    (chat envFb qFlash).attempted = [supported_model, supported_model] ∧
    (chat envFb qFlash).response = .ok ⟨"recovered", "sess-9", supported_model⟩ :=
  (chat_fallback_first_success_or_500 envFb qFlash).2.1 "quota" (.other "recovered")
    rfl rfl

/-- C3: every successful chat whose requested model differs from the
supported default serves a response whose model field is the supported
default and never the requested value. -/
theorem chat_model_field_supported (env : ChatEnv) (q : QueryInput) (r : QueryResponse)
    (hm : q.model ≠ supported_model) (h : (chat env q).response = .ok r) :
    r.model = supported_model ∧ r.model ≠ q.model := by
  cases h0 : env.invoke 0 supported_model (history_or_empty env.history) with
  | ok r0 =>
    rw [chat_eq_ok0 env q r0 h0] at h
    have hr : r = ⟨extract_answer r0, effective_session_id q env.gen_uuid,
        supported_model⟩ := by
      simpa using h.symm
    subst hr
    exact ⟨rfl, fun hc => hm hc.symm⟩
  | error e0 =>
    cases h1 : env.invoke 1 supported_model (history_or_empty env.history) with
    | ok r1 =>
      rw [chat_eq_ok1 env q e0 r1 h0 h1] at h
      have hr : r = ⟨extract_answer r1, effective_session_id q env.gen_uuid,
          supported_model⟩ := by
        simpa using h.symm
      subst hr
      exact ⟨rfl, fun hc => hm hc.symm⟩
    | error e1 =>
      rw [chat_eq_fail env q e0 e1 h0 h1] at h
      simp at h

/-- C3 witness: the concrete successful request for "gemini-2.0-pro" is
served with model "gemini-2.0-flash". -/
theorem chat_model_field_witness :
    (QueryResponse.mk "ans" "uuid-1" "gemini-2.0-flash").model = supported_model ∧
    (QueryResponse.mk "ans" "uuid-1" "gemini-2.0-flash").model ≠ qPro.model :=
  chat_model_field_supported envOk qPro ⟨"ans", "uuid-1", "gemini-2.0-flash"⟩
    (by decide) rfl

/-- C6: when the history fetch raises, the request proceeds with the empty
history, behaves exactly as if the fetch had returned the empty history, and
succeeds normally whenever a candidate invocation succeeds. -/
theorem chat_history_failure_best_effort (env : ChatEnv) (q : QueryInput) (e : String)
    (he : env.history = .error e) :
    (chat env q).history_used = [] ∧
    chat env q = chat { env with history := .ok [] } q ∧
    (∀ r, env.invoke 0 supported_model [] = .ok r →
      (chat env q).response =
        .ok ⟨extract_answer r, effective_session_id q env.gen_uuid, supported_model⟩) := by
  have h0 : history_or_empty env.history = [] := by rw [he]; rfl
  refine ⟨?_, ?_, fun r hr => ?_⟩
  · rw [chat_history_used, h0]
  · exact chat_congr_history env { env with history := .ok [] } q rfl (by rw [h0]; rfl)
      rfl rfl
  · rw [chat_eq_ok0 env q r (by rw [h0]; exact hr)]

/-- C6 witness: a concrete request whose history fetch raises still succeeds,
using the empty history. -/
theorem chat_history_failure_witness :
    (chat envHistFail qFlash).history_used = [] ∧
    (chat envHistFail qFlash).response = .ok ⟨"a3", "sess-9", supported_model⟩ :=
  ⟨(chat_history_failure_best_effort envHistFail qFlash "db down" rfl).1,
   (chat_history_failure_best_effort envHistFail qFlash "db down" rfl).2.2
     (.dict (some "a3") none "raw") rfl⟩

/-- C7: whenever a chat request produced an answer, the same success response
is returned regardless of whether persisting the ChatLogEntry succeeds. -/
theorem chat_log_failure_best_effort (env : ChatEnv) (q : QueryInput) (b : Bool)
    (r : QueryResponse) (h : (chat env q).response = .ok r) :
    (chat { env with insert_log_ok := b } q).response = .ok r := by
  cases h0 : env.invoke 0 supported_model (history_or_empty env.history) with
  | ok r0 =>
    rw [chat_eq_ok0 env q r0 h0] at h
    rw [chat_eq_ok0 { env with insert_log_ok := b } q r0 h0]
    exact h
  | error e0 =>
    cases h1 : env.invoke 1 supported_model (history_or_empty env.history) with
    | ok r1 =>
      rw [chat_eq_ok1 env q e0 r1 h0 h1] at h
      rw [chat_eq_ok1 { env with insert_log_ok := b } q e0 r1 h0 h1]
      exact h
    | error e1 =>
      rw [chat_eq_fail env q e0 e1 h0 h1] at h
      simp at h

/-- C7 witness: the concrete successful request keeps its success response
when the log insert fails. -/
theorem chat_log_failure_witness :
    (chat { envOk with insert_log_ok := false } qPro).response =
      .ok ⟨"ans", "uuid-1", supported_model⟩ :=
  chat_log_failure_best_effort envOk qPro false ⟨"ans", "uuid-1", supported_model⟩ rfl

/-- C10: the candidate list is the supported default twice for every
requested value; a requested value other than the default never appears in
it; every candidate actually attempted equals the supported default; and
`get_rag_chain` passes the supported default through to the LLM client. -/
theorem chat_candidates_all_supported (req : String) (env : ChatEnv) (q : QueryInput) :
    model_candidates req = [supported_model, supported_model] ∧
    (req ≠ supported_model → req ∉ model_candidates req) ∧
    (∀ c ∈ (chat env q).attempted, c = supported_model) ∧
    rag_chain_model supported_model = supported_model := by
  refine ⟨model_candidates_eq req, fun hne => ?_, fun c hc => ?_, by rfl⟩
  · rw [model_candidates_eq]
    simp [hne]
  · cases h0 : env.invoke 0 supported_model (history_or_empty env.history) with
    | ok r0 =>
      rw [chat_eq_ok0 env q r0 h0] at hc
      simpa using hc
    | error e0 =>
      cases h1 : env.invoke 1 supported_model (history_or_empty env.history) with
      | ok r1 =>
        rw [chat_eq_ok1 env q e0 r1 h0 h1] at hc
        simpa using hc
      | error e1 =>
        rw [chat_eq_fail env q e0 e1 h0 h1] at hc
        simpa using hc

/-- C10 witness: the requested "gemini-2.0-pro" is not among the candidates,
and the concrete attempted candidate equals the supported default. -/
theorem chat_candidates_witness :
    "gemini-2.0-pro" ∉ model_candidates "gemini-2.0-pro" ∧
    "gemini-2.0-flash" = supported_model :=
  ⟨(chat_candidates_all_supported "gemini-2.0-pro" envOk qPro).2.1 (by decide),
   (chat_candidates_all_supported "gemini-2.0-pro" envOk qPro).2.2.1
     "gemini-2.0-flash" (by decide)⟩

end RAG
